import Mathlib

/-!
Verification development for the feedback backend (src/backend/app.py).

The Python module is shallowly embedded below:

* Python `dict`s produced by `json.loads` become the `Json` / `JsonArr` /
  `JsonObj` inductives; `data.get(key, default)` becomes `objGet` plus
  `Option.getD` (a repeated key keeps its last binding, as a Python dict does).
* `json.loads` itself becomes the executable fuel-based recursive-descent
  decoder `pyJsonLoads`.  It accepts exactly the standard JSON grammar the
  CPython pure-Python decoder accepts in strict mode (objects, arrays,
  strings with escapes, numbers, `true`/`false`/`null`, plus the CPython
  extensions `NaN`/`Infinity`/`-Infinity`), and rejects trailing data.
  Numbers keep their source text, which is all the program ever inspects.
  Escaped lone UTF-16 surrogates, which a Lean `Char` cannot represent, are
  decoded to U+FFFD; no property below depends on them.
* Exceptions become `Option`/`Except` values: every `try ... except` of the
  source is an explicit `match`.
* The single outbound HTTP call is abstracted by `RemoteOutcome`: either
  `failure` (timeout, transport error, non-success status, or a malformed
  response envelope, each of which raises inside `_call_google`) or
  `success raw_text` (the extracted model text).
* Machine integers do not overflow anywhere in the source, so ratings are
  plain `Int` and lengths plain `Nat`.
-/

mutual
/-- JSON values as returned by the Python decoder.  Mutual, list-free shape
so that equality is decidable by derivation. -/
inductive Json where
  | null : Json
  | bool (b : Bool) : Json
  | num (lit : String) : Json
  | str (s : String) : Json
  | arr (elems : JsonArr) : Json
  | obj (fields : JsonObj) : Json
inductive JsonArr where
  | anil : JsonArr
  | acons (hd : Json) (tl : JsonArr) : JsonArr
inductive JsonObj where
  | onil : JsonObj
  | ocons (key : String) (val : Json) (tl : JsonObj) : JsonObj
end

deriving instance DecidableEq for Json, JsonArr, JsonObj

/-- Lookup in a decoded JSON object.  The later binding wins, matching the
overwrite semantics of the Python dict built by the decoder. -/
def objGet : JsonObj → String → Option Json
  | JsonObj.onil, _ => none
  | JsonObj.ocons k v tl, key =>
    match objGet tl key with
    | some r => some r
    | none => if k = key then some v else none

/-- Whitespace skipped between JSON tokens (the decoder strips " \t\n\r"). -/
def jsonWs (c : Char) : Bool :=
  c = ' ' || c = '\t' || c = '\n' || c = '\r'

def skipJsonWs (cs : List Char) : List Char := cs.dropWhile jsonWs

def isJsonDigit (c : Char) : Bool := '0' ≤ c && c ≤ '9'

def isHexChar (c : Char) : Bool :=
  isJsonDigit c || ('a' ≤ c && c ≤ 'f') || ('A' ≤ c && c ≤ 'F')

def hexVal (c : Char) : Nat :=
  if isJsonDigit c then c.toNat - '0'.toNat
  else if 'a' ≤ c then c.toNat - 'a'.toNat + 10
  else c.toNat - 'A'.toNat + 10

/-- Integer part of the JSON number grammar: `0` or a nonzero digit followed
by digits (leading zeros are not matched, as in the decoder regex). -/
def parseIntPart : List Char → Option (List Char × List Char)
  | [] => none
  | c :: rest =>
    if c = '0' then some (['0'], rest)
    else if '1' ≤ c && c ≤ '9' then
      let p := rest.span isJsonDigit
      some (c :: p.1, p.2)
    else none

/-- Optional fractional part `.[0-9]+`; consumes nothing when absent or
malformed, exactly as an unmatched optional regex group. -/
def parseFracPart (cs : List Char) : List Char × List Char :=
  match cs with
  | '.' :: rest =>
    let p := rest.span isJsonDigit
    if p.1.isEmpty then ([], cs) else ('.' :: p.1, p.2)
  | _ => ([], cs)

/-- Optional exponent part `[eE][+-]?[0-9]+`; consumes nothing when absent or
malformed. -/
def parseExpPart (cs : List Char) : List Char × List Char :=
  match cs with
  | [] => ([], cs)
  | c :: rest =>
    if c = 'e' || c = 'E' then
      match rest with
      | [] => ([], cs)
      | s :: rest2 =>
        if s = '+' || s = '-' then
          let p := rest2.span isJsonDigit
          if p.1.isEmpty then ([], cs) else (c :: s :: p.1, p.2)
        else
          let p := rest.span isJsonDigit
          if p.1.isEmpty then ([], cs) else (c :: p.1, p.2)
    else ([], cs)

/-- JSON number at the current position; the matched literal is kept as
text. -/
def parseNumber (cs : List Char) : Option (Json × List Char) :=
  let p0 : List Char × List Char :=
    match cs with
    | '-' :: rest => (['-'], rest)
    | _ => ([], cs)
  match parseIntPart p0.2 with
  | none => none
  | some (ip, r1) =>
    let pf := parseFracPart r1
    let pe := parseExpPart pf.2
    some (Json.num (String.mk (p0.1 ++ ip ++ pf.1 ++ pe.1)), pe.2)

def lbrace : Char := Char.ofNat 123

def rbrace : Char := Char.ofNat 125

/-- Decoder modes: a whole value, the body of a quoted string (with the
characters read so far), the members of an object after `{`, or the elements
of an array after `[`. -/
inductive PMode where
  | value : PMode
  | strBody (acc : List Char) : PMode
  | members : PMode
  | elems : PMode

/-- Decoder intermediate results, one per mode. -/
inductive POut where
  | v (j : Json) : POut
  | s (s : String) : POut
  | mem (m : JsonObj) : POut
  | el (a : JsonArr) : POut

/-- One recursive-descent decoder for all modes, structurally recursive on a
fuel argument.  Fuel is charged once per call and at least one input
character separates consecutive charges, so `2 * length + 2` fuel can never
run out; `pyJsonLoads` supplies more. -/
def parseStep : Nat → PMode → List Char → Option (POut × List Char)
  | 0, _, _ => none
  | Nat.succ fuel, PMode.value, cs =>
    match skipJsonWs cs with
    | [] => none
    | c :: rest =>
      if c = '"' then
        match parseStep fuel (PMode.strBody []) rest with
        | some (POut.s s, r) => some (POut.v (Json.str s), r)
        | _ => none
      else if c = lbrace then
        match skipJsonWs rest with
        | [] => none
        | c2 :: rest2 =>
          if c2 = rbrace then some (POut.v (Json.obj JsonObj.onil), rest2)
          else
            match parseStep fuel PMode.members (c2 :: rest2) with
            | some (POut.mem m, r) => some (POut.v (Json.obj m), r)
            | _ => none
      else if c = '[' then
        match skipJsonWs rest with
        | [] => none
        | c2 :: rest2 =>
          if c2 = ']' then some (POut.v (Json.arr JsonArr.anil), rest2)
          else
            match parseStep fuel PMode.elems (c2 :: rest2) with
            | some (POut.el a, r) => some (POut.v (Json.arr a), r)
            | _ => none
      else if c = 't' then
        match rest with
        | 'r' :: 'u' :: 'e' :: r => some (POut.v (Json.bool true), r)
        | _ => none
      else if c = 'f' then
        match rest with
        | 'a' :: 'l' :: 's' :: 'e' :: r => some (POut.v (Json.bool false), r)
        | _ => none
      else if c = 'n' then
        match rest with
        | 'u' :: 'l' :: 'l' :: r => some (POut.v Json.null, r)
        | _ => none
      else if c = 'N' then
        match rest with
        | 'a' :: 'N' :: r => some (POut.v (Json.num "NaN"), r)
        | _ => none
      else if c = 'I' then
        match rest with
        | 'n' :: 'f' :: 'i' :: 'n' :: 'i' :: 't' :: 'y' :: r =>
          some (POut.v (Json.num "Infinity"), r)
        | _ => none
      else if c = '-' then
        match parseNumber (c :: rest) with
        | some (j, r) => some (POut.v j, r)
        | none =>
          match rest with
          | 'I' :: 'n' :: 'f' :: 'i' :: 'n' :: 'i' :: 't' :: 'y' :: r =>
            some (POut.v (Json.num "-Infinity"), r)
          | _ => none
      else
        match parseNumber (c :: rest) with
        | some (j, r) => some (POut.v j, r)
        | none => none
  | Nat.succ fuel, PMode.strBody acc, cs =>
    match cs with
    | [] => none
    | c :: rest =>
      if c = '"' then some (POut.s (String.mk acc.reverse), rest)
      else if c = '\\' then
        match rest with
        | [] => none
        | e :: rest2 =>
          if e = '"' then parseStep fuel (PMode.strBody ('"' :: acc)) rest2
          else if e = '\\' then parseStep fuel (PMode.strBody ('\\' :: acc)) rest2
          else if e = '/' then parseStep fuel (PMode.strBody ('/' :: acc)) rest2
          else if e = 'b' then parseStep fuel (PMode.strBody (Char.ofNat 8 :: acc)) rest2
          else if e = 'f' then parseStep fuel (PMode.strBody (Char.ofNat 12 :: acc)) rest2
          else if e = 'n' then parseStep fuel (PMode.strBody ('\n' :: acc)) rest2
          else if e = 'r' then parseStep fuel (PMode.strBody ('\r' :: acc)) rest2
          else if e = 't' then parseStep fuel (PMode.strBody ('\t' :: acc)) rest2
          else if e = 'u' then
            match rest2 with
            | h1 :: h2 :: h3 :: h4 :: rest3 =>
              if isHexChar h1 && isHexChar h2 && isHexChar h3 && isHexChar h4 then
                let n := ((hexVal h1 * 16 + hexVal h2) * 16 + hexVal h3) * 16 + hexVal h4
                if 55296 ≤ n ∧ n ≤ 56319 then
                  match rest3 with
                  | '\\' :: 'u' :: g1 :: g2 :: g3 :: g4 :: rest4 =>
                    if isHexChar g1 && isHexChar g2 && isHexChar g3 && isHexChar g4 then
                      let m := ((hexVal g1 * 16 + hexVal g2) * 16 + hexVal g3) * 16 + hexVal g4
                      if 56320 ≤ m ∧ m ≤ 57343 then
                        let cp := 65536 + (n - 55296) * 1024 + (m - 56320)
                        parseStep fuel (PMode.strBody (Char.ofNat cp :: acc)) rest4
                      else parseStep fuel (PMode.strBody (Char.ofNat 65533 :: acc)) rest3
                    else parseStep fuel (PMode.strBody (Char.ofNat 65533 :: acc)) rest3
                  | _ => parseStep fuel (PMode.strBody (Char.ofNat 65533 :: acc)) rest3
                else if 56320 ≤ n ∧ n ≤ 57343 then
                  parseStep fuel (PMode.strBody (Char.ofNat 65533 :: acc)) rest3
                else parseStep fuel (PMode.strBody (Char.ofNat n :: acc)) rest3
              else none
            | _ => none
          else none
      else if c.toNat < 32 then none
      else parseStep fuel (PMode.strBody (c :: acc)) rest
  | Nat.succ fuel, PMode.members, cs =>
    match skipJsonWs cs with
    | [] => none
    | c :: rest =>
      if c = '"' then
        match parseStep fuel (PMode.strBody []) rest with
        | some (POut.s k, r1) =>
          match skipJsonWs r1 with
          | ':' :: r2 =>
            match parseStep fuel PMode.value r2 with
            | some (POut.v v, r3) =>
              match skipJsonWs r3 with
              | [] => none
              | ',' :: r4 =>
                match parseStep fuel PMode.members r4 with
                | some (POut.mem tl, r5) => some (POut.mem (JsonObj.ocons k v tl), r5)
                | _ => none
              | c4 :: r4 =>
                if c4 = rbrace then some (POut.mem (JsonObj.ocons k v JsonObj.onil), r4)
                else none
            | _ => none
          | _ => none
        | _ => none
      else none
  | Nat.succ fuel, PMode.elems, cs =>
    match parseStep fuel PMode.value cs with
    | some (POut.v v, r1) =>
      match skipJsonWs r1 with
      | ',' :: r2 =>
        match parseStep fuel PMode.elems r2 with
        | some (POut.el tl, r3) => some (POut.el (JsonArr.acons v tl), r3)
        | _ => none
      | ']' :: r2 => some (POut.el (JsonArr.acons v JsonArr.anil), r2)
      | _ => none
    | _ => none

/-- Embedding of `json.loads`: decode one value, then require that only
whitespace remains (the decoder raises "Extra data" otherwise).  `none` is
the raised `JSONDecodeError`. -/
def pyJsonLoads (s : String) : Option Json :=
  match parseStep (4 * s.length + 16) PMode.value s.data with
  | some (POut.v v, rest) => if skipJsonWs rest = [] then some v else none
  | _ => none

/-- Whitespace stripped by the Python `str.strip()` calls of the module
(ASCII whitespace; the review and model texts involved are ASCII, so the
exotic Unicode space characters `str.strip()` would also remove are not
modelled). -/
def isPyWhitespace (c : Char) : Bool :=
  c = ' ' || c = '\t' || c = '\n' || c = '\r' || c = Char.ofNat 11 || c = Char.ofNat 12

/-- Embedding of `s.strip()`: drop whitespace from both ends. -/
def pyStrip (s : String) : String :=
  String.mk (((s.data.dropWhile isPyWhitespace).reverse.dropWhile isPyWhitespace).reverse)

/-- Embedding of the slice `s[:n]` on a Python `str` (by code points). -/
def pySlice (s : String) (n : Nat) : String := String.mk (s.data.take n)

/-- Embedding of `s.split("\n")`: split at every newline, keeping empty
pieces. -/
def splitNl : List Char → List (List Char)
  | [] => [[]]
  | c :: rest =>
    if c = '\n' then [] :: splitNl rest
    else
      match splitNl rest with
      | [] => [[c]]
      | l :: ls => (c :: l) :: ls

/-- Embedding of `"\n".join(lines)`. -/
def joinNl : List (List Char) → List Char
  | [] => []
  | [l] => l
  | l :: ls => l ++ '\n' :: joinNl ls

def backtickChar : Char := Char.ofNat 96

/-- Test for `cleaned.startswith("` ++ "``" ++ "`" ++ `")`. -/
def startsFence : List Char → Bool
  | c1 :: c2 :: c3 :: _ => c1 = backtickChar && c2 = backtickChar && c3 = backtickChar
  | _ => false

/-- Embedding of the fence-stripping step of `LLMService._parse`: when the
stripped text opens with three backticks and has more than two lines, drop
the first and last line and rejoin; otherwise keep the text unchanged. -/
def stripFence (cleaned : String) : String :=
  if startsFence cleaned.data then
    let lines := splitNl cleaned.data
    if lines.length > 2 then String.mk (joinNl ((lines.drop 1).dropLast))
    else cleaned
  else cleaned

/-- The three-field feedback dict built by `LLMService`.  Field values are
JSON values: the parser copies whatever `data.get` returns, while the
fallback path always stores non-empty strings. -/
structure FeedbackResult where
  ai_response : Json
  ai_summary : Json
  ai_recommended_action : Json
deriving DecidableEq

/-- Embedding of `Config` (app.py lines 26-33).  `LLM_PROVIDER` reads the
environment variable and defaults to "google" when it is unset. -/
def Config.LLM_PROVIDER (env : Option String) : String := env.getD "google"

def Config.MAX_REVIEW_LENGTH : Nat := 5000

def Config.LLM_TIMEOUT : Nat := 30

def Config.LLM_MAX_RETRIES : Nat := 2

/-- Embedding of `LLMService._fallback` (app.py lines 155-173). -/
def LLMService._fallback (rating : Int) : FeedbackResult :=
  if rating ≤ 2 then
    ⟨Json.str "Thank you for your feedback. We take all concerns seriously and will investigate this matter promptly.",
     Json.str "Low rating received - requires immediate attention",
     Json.str "Escalate to customer success team within 4 hours"⟩
  else if rating = 3 then
    ⟨Json.str "Thank you for your feedback. We\x27re always working to improve our service.",
     Json.str "Neutral feedback - monitor for patterns",
     Json.str "Add to weekly review queue"⟩
  else
    ⟨Json.str "Thank you for your positive feedback! We\x27re delighted to hear about your experience.",
     Json.str "Positive customer feedback",
     Json.str "No immediate action required"⟩

/-- Embedding of `LLMService._parse` (app.py lines 138-153).  Everything in
the `try` block that can raise is the JSON decode and the attribute access
`data.get` (which fails exactly when the decoded value is not an object);
both escapes land in the `except` arm, i.e. the `_ => _fallback` case.  A
key that is missing from the decoded object becomes the default `""`. -/
def LLMService._parse (text : String) (rating : Int) : FeedbackResult :=
  let cleaned := stripFence (pyStrip text)
  match pyJsonLoads cleaned with
  | some (Json.obj data) =>
    ⟨(objGet data "user_response").getD (Json.str ""),
     (objGet data "admin_summary").getD (Json.str ""),
     (objGet data "recommended_action").getD (Json.str "")⟩
  | _ => LLMService._fallback rating

/-- Text of the prompt template before the embedded review (the part of the
f-string of `LLMService._build_prompt` up to `- Review: `, with the rating
interpolated). -/
def promptPre (rating : Int) : String :=
  "You are an AI customer feedback analyst for an e-commerce platform.\n\nA customer submitted:\n- Rating: "
    ++ toString rating
    ++ "/5 stars\n- Review: "

/-- Text of the prompt template after the embedded review. -/
def promptPost : String :=
  "\n\nGenerate a JSON response with exactly these three fields:\n\n1. \"user_response\": A warm, professional reply to the customer (2-3 sentences)\n2. \"admin_summary\": A concise internal summary (1 sentence)\n3. \"recommended_action\": A clear next action for the business\n\nCRITICAL: Respond ONLY with valid JSON. No markdown, no code blocks, no additional text.\n\nExample:\n\x7b\n  \"user_response\": \"Thank you for your feedback...\",\n  \"admin_summary\": \"Customer experienced shipping delay\",\n  \"recommended_action\": \"Follow up within 24 hours\"\n\x7d"

/-- Embedding of `LLMService._build_prompt` (app.py lines 116-136): the
rendered prompt is literally the template with the review text spliced
between the fixed pieces. -/
def LLMService._build_prompt (rating : Int) (review : String) : String :=
  promptPre rating ++ review ++ promptPost

/-- Behaviour of the one outbound HTTP request of `_call_google`:
`failure` stands for any raising path (timeout, transport error,
`raise_for_status` on a non-success status, or a `KeyError`/`IndexError`
while unpacking the response envelope `json()["candidates"][0]...`);
`success t` is a completed call whose extracted model text is `t`. -/
inductive RemoteOutcome where
  | failure : RemoteOutcome
  | success (text : String) : RemoteOutcome
deriving DecidableEq

/-- Embedding of `LLMService._call_google` (app.py lines 105-114): build the
prompt, perform the request (abstracted by `out`), and on completion parse
the extracted text.  `Except.error` is an exception propagating to the
caller. -/
def LLMService._call_google (rating : Int) (review_text : String)
    (out : RemoteOutcome) : Except Unit FeedbackResult :=
  let _prompt := LLMService._build_prompt rating review_text
  match out with
  | RemoteOutcome.failure => Except.error ()
  | RemoteOutcome.success t => Except.ok (LLMService._parse t rating)

/-- Embedding of `LLMService.generate_feedback` (app.py lines 96-103),
instrumented with a Bool recording whether the remote-call path was entered
(the `except` arm catches every exception and falls back).  The result is
the first component; the second is `true` exactly when `_call_google` ran,
i.e. when one outbound request was attempted. -/
def LLMService.generate_feedback_run (provider : String) (rating : Int)
    (review_text : String) (out : RemoteOutcome) : FeedbackResult × Bool :=
  if provider = "google" then
    match LLMService._call_google rating review_text out with
    | Except.ok r => (r, true)
    | Except.error _ => (LLMService._fallback rating, true)
  else (LLMService._fallback rating, false)

/-- Result of `LLMService.generate_feedback`; a total function, since every
exception of the body is caught by the `except` arm. -/
def LLMService.generate_feedback (provider : String) (rating : Int)
    (review_text : String) (out : RemoteOutcome) : FeedbackResult :=
  (LLMService.generate_feedback_run provider rating review_text out).1

/-- A row of the `reviews` table (app.py lines 51-69).  `created_at` is the
insert-time `datetime.utcnow().isoformat()` timestamp; ISO-8601 UTC
timestamps compare lexicographically in chronological order, so it is
modelled as a Nat.  The generated uuid key plays no role in any claim and
is omitted. -/
structure StoredReview where
  rating : Int
  review_text : String
  ai_response : Json
  ai_summary : Json
  ai_recommended_action : Json
  created_at : Nat
deriving DecidableEq

/-- The projection selected by `get_all_reviews`:
`SELECT rating, review_text, ai_summary, ai_recommended_action, created_at`. -/
structure ReviewRow where
  rating : Int
  review_text : String
  ai_summary : Json
  ai_recommended_action : Json
  created_at : Nat
deriving DecidableEq

def projectRow (r : StoredReview) : ReviewRow :=
  ⟨r.rating, r.review_text, r.ai_summary, r.ai_recommended_action, r.created_at⟩

/-- Ordering `ORDER BY created_at DESC`: newest first. -/
def newestFirst (a b : ReviewRow) : Prop := b.created_at ≤ a.created_at

instance : DecidableRel newestFirst :=
  fun a b => inferInstanceAs (Decidable (b.created_at ≤ a.created_at))

instance : IsTotal ReviewRow newestFirst :=
  ⟨fun a b => le_total b.created_at a.created_at⟩

instance : IsTrans ReviewRow newestFirst :=
  ⟨fun _ _ _ h1 h2 => le_trans h2 h1⟩

/-- Embedding of `DatabaseManager.get_all_reviews` (app.py lines 71-83).
The Python guard `if rating_filter:` is truthiness: `None` and `0` both
select the unfiltered query.  The SQL result is the filtered rows, sorted
newest-first (ties are left in an arbitrary order by SQLite; a sort makes
that concrete). -/
def get_all_reviews (store : List StoredReview) (rating_filter : Option Int) :
    List ReviewRow :=
  let rows :=
    match rating_filter with
    | some r => if r = 0 then store else store.filter (fun x => decide (x.rating = r))
    | none => store
  List.insertionSort newestFirst (rows.map projectRow)

/-- Response of the `POST /submit-review` route: either the success body
`{status, ai_response}` or an HTTP error status (422 for the pydantic
validation failure, 500 for the catch-all handler). -/
inductive SubmitResponse where
  | ok (status : String) (ai_response : Json) : SubmitResponse
  | clientError (code : Nat) : SubmitResponse
deriving DecidableEq

/-- Observable outcome of one `POST /submit-review` request: the HTTP
response, the resulting table, whether an outbound model call was attempted,
and the prompt carried by that call when one was made. -/
structure SubmitOutcome where
  response : SubmitResponse
  store : List StoredReview
  remoteAttempted : Bool
  promptUsed : Option String
deriving DecidableEq

/-- Embedding of the `POST /submit-review` pipeline (app.py lines 179-188
and 260-279).  FastAPI validates the `ReviewSubmission` body before the
handler runs: `rating` must satisfy `ge=1, le=5` and `review_text` must be
non-empty after stripping (the validator returns the stripped text); a
failure is a 422 response and nothing else happens.  The handler then
truncates to `MAX_REVIEW_LENGTH`, generates feedback, inserts the row and
answers `{status: "success", ai_response}`. -/
def submit_review (provider : String) (rating : Int) (review_text_raw : String)
    (out : RemoteOutcome) (store : List StoredReview) (now : Nat) : SubmitOutcome :=
  if 1 ≤ rating ∧ rating ≤ 5 then
    let stripped := pyStrip review_text_raw
    if stripped = "" then ⟨SubmitResponse.clientError 422, store, false, none⟩
    else
      let review_text := pySlice stripped Config.MAX_REVIEW_LENGTH
      let run := LLMService.generate_feedback_run provider rating review_text out
      ⟨SubmitResponse.ok "success" run.1.ai_response,
       store ++ [⟨rating, review_text, run.1.ai_response, run.1.ai_summary,
                 run.1.ai_recommended_action, now⟩],
       run.2,
       if run.2 then some (LLMService._build_prompt rating review_text) else none⟩
  else ⟨SubmitResponse.clientError 422, store, false, none⟩

/-- Specification-level restatement of the parser contract, written from the
amended wording: decode the fence-stripped, trimmed text; when it decodes to
an object, each output field is the value under its key, with the empty
string substituted for a missing key; any decode failure or non-object value
yields the full fallback triple for the rating. -/
def parseSpec (text : String) (rating : Int) : FeedbackResult :=
  match pyJsonLoads (stripFence (pyStrip text)) with
  | some (Json.obj data) =>
    ⟨(objGet data "user_response").getD (Json.str ""),
     (objGet data "admin_summary").getD (Json.str ""),
     (objGet data "recommended_action").getD (Json.str "")⟩
  | _ => LLMService._fallback rating

/-- The urgent-escalation triple of the fallback policy (spec 4.1, first
case). -/
def urgentTriple : FeedbackResult :=
  ⟨Json.str "Thank you for your feedback. We take all concerns seriously and will investigate this matter promptly.",
   Json.str "Low rating received - requires immediate attention",
   Json.str "Escalate to customer success team within 4 hours"⟩

/-- The monitor triple of the fallback policy (spec 4.1, second case). -/
def monitorTriple : FeedbackResult :=
  ⟨Json.str "Thank you for your feedback. We\x27re always working to improve our service.",
   Json.str "Neutral feedback - monitor for patterns",
   Json.str "Add to weekly review queue"⟩

/-- The no-action triple of the fallback policy (spec 4.1, third case). -/
def noActionTriple : FeedbackResult :=
  ⟨Json.str "Thank you for your positive feedback! We\x27re delighted to hear about your experience.",
   Json.str "Positive customer feedback",
   Json.str "No immediate action required"⟩

/-- A remote-call behaviour that makes `generate_feedback` surface an empty
field: the call completes and its text decodes to a JSON object in which one
of the three expected keys is missing or is bound to the empty string. -/
def degenerateModelOutput (out : RemoteOutcome) : Prop :=
  ∃ t m, out = RemoteOutcome.success t
    ∧ pyJsonLoads (stripFence (pyStrip t)) = some (Json.obj m)
    ∧ (objGet m "user_response" = none ∨ objGet m "user_response" = some (Json.str "")
       ∨ objGet m "admin_summary" = none ∨ objGet m "admin_summary" = some (Json.str "")
       ∨ objGet m "recommended_action" = none
       ∨ objGet m "recommended_action" = some (Json.str ""))

theorem fallback_fields_nonempty (r : Int) :
    (LLMService._fallback r).ai_response ≠ Json.str ""
    ∧ (LLMService._fallback r).ai_summary ≠ Json.str ""
    ∧ (LLMService._fallback r).ai_recommended_action ≠ Json.str "" := by
  unfold LLMService._fallback
  split
  · exact ⟨by decide, by decide, by decide⟩
  · split
    · exact ⟨by decide, by decide, by decide⟩
    · exact ⟨by decide, by decide, by decide⟩

theorem generate_failure_eq (p : String) (r : Int) (rv : String) :
    LLMService.generate_feedback p r rv RemoteOutcome.failure = LLMService._fallback r := by
  unfold LLMService.generate_feedback LLMService.generate_feedback_run LLMService._call_google
  split
  · rfl
  · rfl

theorem generate_success_eq (r : Int) (rv : String) (t : String) :
    LLMService.generate_feedback "google" r rv (RemoteOutcome.success t)
      = LLMService._parse t r := rfl

theorem getD_ne_emptyStr (o : Option Json)
    (h1 : o ≠ none) (h2 : o ≠ some (Json.str "")) :
    o.getD (Json.str "") ≠ Json.str "" := by
  cases o with
  | none => exact absurd rfl h1
  | some v =>
    intro hv
    rw [Option.getD_some] at hv
    exact h2 (by rw [hv])

/-- C3: for every rating r in 1..5 the fallback classifier is total and
deterministic and returns exactly the specified triple: the
urgent-escalation triple for r in 1..2 (summary flags immediate attention,
action escalates to the customer success team within 4 hours), the monitor
triple for r = 3 (weekly review queue), and the no-action triple for r in
4..5; it is a pure total function (so it never throws) and none of the
returned fields is the empty string. -/
theorem fallback_policy_in_range (r : Int) (_h1 : 1 ≤ r) (_h2 : r ≤ 5) :
    LLMService._fallback r
      = (if r ≤ 2 then urgentTriple else if r = 3 then monitorTriple else noActionTriple)
    ∧ (LLMService._fallback r).ai_response ≠ Json.str ""
    ∧ (LLMService._fallback r).ai_summary ≠ Json.str ""
    ∧ (LLMService._fallback r).ai_recommended_action ≠ Json.str "" :=
  ⟨rfl, fallback_fields_nonempty r⟩

theorem fallback_policy_in_range_witness :
    LLMService._fallback 2
      = (if (2 : Int) ≤ 2 then urgentTriple else if (2 : Int) = 3 then monitorTriple else noActionTriple)
    ∧ (LLMService._fallback 2).ai_response ≠ Json.str ""
    ∧ (LLMService._fallback 2).ai_summary ≠ Json.str ""
    ∧ (LLMService._fallback 2).ai_recommended_action ≠ Json.str "" :=
  fallback_policy_in_range 2 (by decide) (by decide)

/-- C10: the fallback classifier is total over every integer rating, not
only 1..5: any r ≤ 2 (including 0 and negatives) yields the
urgent-escalation triple, r = 3 the monitor triple, and any r ≥ 4 the
no-action triple, always with non-empty fields; consequently
`generate_feedback` yields the fully populated fallback triple for
out-of-range ratings reaching it directly (shown for every provider on the
failed-call path, the path on which only the classifier can produce the
result). -/
theorem fallback_total_all_int (r : Int) :
    LLMService._fallback r
      = (if r ≤ 2 then urgentTriple else if r = 3 then monitorTriple else noActionTriple)
    ∧ (LLMService._fallback r).ai_response ≠ Json.str ""
    ∧ (LLMService._fallback r).ai_summary ≠ Json.str ""
    ∧ (LLMService._fallback r).ai_recommended_action ≠ Json.str ""
    ∧ (∀ p rv : String,
        LLMService.generate_feedback p r rv RemoteOutcome.failure = LLMService._fallback r) :=
  ⟨rfl, (fallback_fields_nonempty r).1, (fallback_fields_nonempty r).2.1,
   (fallback_fields_nonempty r).2.2, fun p rv => generate_failure_eq p r rv⟩

/-- C2 (amended): the parser never raises to its caller and equals the
following specification: JSON-decode the fence-stripped, trimmed text; on
decode failure, or when the decoded value is not an object, return the full
fallback triple for the rating (the Unusable outcome); when the decoded
value is an object, return its values under the three keys verbatim, with a
missing key mapped to the empty string (so a missing key does NOT trigger
the fallback, contrary to the original claim, and a key bound to an empty
string is likewise kept as a valid value). -/
theorem parse_refines_parseSpec (text : String) (rating : Int) :
    LLMService._parse text rating = parseSpec text rating := rfl

/-- C2 counterexample: the text consisting of an empty JSON object decodes
successfully to an object missing all three required keys, yet the parser
does not return the fallback triple (it returns empty-string fields
instead), refuting the claim that a missing key yields the Unusable/full
fallback outcome. -/
theorem parse_missing_key_counterexample :
    pyJsonLoads (stripFence (pyStrip "\x7b\x7d")) = some (Json.obj JsonObj.onil)
    ∧ objGet JsonObj.onil "user_response" = none
    ∧ LLMService._parse "\x7b\x7d" 1 ≠ LLMService._fallback 1 :=
  ⟨by decide, rfl, by decide⟩

/-- C1 (amended): for every provider, rating, review text and remote-call
behaviour, `generate_feedback` returns a result whose three fields are all
non-empty, UNLESS the remote call succeeds with text that decodes to a JSON
object in which one of the three expected keys is missing or bound to the
empty string (in that degenerate case the parser forwards the empty string,
so the original unconditional non-emptiness claim fails). -/
theorem generate_fields_nonempty_or_degenerate (p : String) (r : Int) (rv : String)
    (out : RemoteOutcome) :
    ((LLMService.generate_feedback p r rv out).ai_response ≠ Json.str ""
      ∧ (LLMService.generate_feedback p r rv out).ai_summary ≠ Json.str ""
      ∧ (LLMService.generate_feedback p r rv out).ai_recommended_action ≠ Json.str "")
    ∨ degenerateModelOutput out := by
  by_cases hp : p = "google"
  · subst hp
    cases out with
    | failure =>
      rw [generate_failure_eq]
      exact Or.inl (fallback_fields_nonempty r)
    | success t =>
      rw [generate_success_eq]
      unfold LLMService._parse
      cases hdec : pyJsonLoads (stripFence (pyStrip t)) with
      | none =>
        simp only [hdec]
        exact Or.inl (fallback_fields_nonempty r)
      | some j =>
        cases j with
        | null => simp only [hdec]; exact Or.inl (fallback_fields_nonempty r)
        | bool b => simp only [hdec]; exact Or.inl (fallback_fields_nonempty r)
        | num lit => simp only [hdec]; exact Or.inl (fallback_fields_nonempty r)
        | str s => simp only [hdec]; exact Or.inl (fallback_fields_nonempty r)
        | arr a => simp only [hdec]; exact Or.inl (fallback_fields_nonempty r)
        | obj m =>
          simp only [hdec]
          by_cases b1 : objGet m "user_response" = none
              ∨ objGet m "user_response" = some (Json.str "")
          · exact Or.inr ⟨t, m, rfl, hdec, by tauto⟩
          · by_cases b2 : objGet m "admin_summary" = none
                ∨ objGet m "admin_summary" = some (Json.str "")
            · exact Or.inr ⟨t, m, rfl, hdec, by tauto⟩
            · by_cases b3 : objGet m "recommended_action" = none
                  ∨ objGet m "recommended_action" = some (Json.str "")
              · exact Or.inr ⟨t, m, rfl, hdec, by tauto⟩
              · push_neg at b1 b2 b3
                exact Or.inl ⟨getD_ne_emptyStr _ b1.1 b1.2,
                  getD_ne_emptyStr _ b2.1 b2.2, getD_ne_emptyStr _ b3.1 b3.2⟩
  · have hgen : LLMService.generate_feedback p r rv out = LLMService._fallback r := by
      unfold LLMService.generate_feedback LLMService.generate_feedback_run
      rw [if_neg hp]
    rw [hgen]
    exact Or.inl (fallback_fields_nonempty r)

/-- C1 counterexample: with the remote call succeeding and the model
returning the valid JSON object text consisting of an empty object, every
output field of `generate_feedback` is the empty string, refuting the claim
that the three fields are never empty under every remote behaviour. -/
theorem generate_empty_fields_counterexample :
    (LLMService.generate_feedback "google" 1 "Item arrived broken"
        (RemoteOutcome.success "\x7b\x7d")).ai_response = Json.str ""
    ∧ (LLMService.generate_feedback "google" 1 "Item arrived broken"
        (RemoteOutcome.success "\x7b\x7d")).ai_summary = Json.str ""
    ∧ (LLMService.generate_feedback "google" 1 "Item arrived broken"
        (RemoteOutcome.success "\x7b\x7d")).ai_recommended_action = Json.str "" :=
  ⟨by decide, by decide, by decide⟩

/-- C4: for every rating and review text, if the remote call fails in any
way (timeout, non-success status, transport error, malformed envelope: all
of these raise inside the call and are the `failure` outcome), or the call
succeeds but the parser yields the Unusable outcome (its text does not
decode to a JSON object), then `generate_feedback` returns exactly the
fallback triple for that rating; being a total function, it surfaces no
error to its caller. -/
theorem generate_fallback_on_failure_paths (r : Int) (rv : String) :
    LLMService.generate_feedback "google" r rv RemoteOutcome.failure = LLMService._fallback r
    ∧ ∀ t : String,
        (∀ m : JsonObj, pyJsonLoads (stripFence (pyStrip t)) ≠ some (Json.obj m)) →
        LLMService.generate_feedback "google" r rv (RemoteOutcome.success t)
          = LLMService._fallback r := by
  refine ⟨generate_failure_eq "google" r rv, fun t h => ?_⟩
  rw [generate_success_eq]
  unfold LLMService._parse
  cases hdec : pyJsonLoads (stripFence (pyStrip t)) with
  | none => simp only [hdec]
  | some j =>
    cases j with
    | obj m => exact absurd hdec (h m)
    | null => simp only [hdec]
    | bool b => simp only [hdec]
    | num lit => simp only [hdec]
    | str s => simp only [hdec]
    | arr a => simp only [hdec]

theorem generate_fallback_on_failure_paths_witness :
    LLMService.generate_feedback "google" 1 "Item arrived broken" RemoteOutcome.failure
      = LLMService._fallback 1
    ∧ LLMService.generate_feedback "google" 1 "Item arrived broken"
        (RemoteOutcome.success "I am sorry, I cannot respond.")
      = LLMService._fallback 1 := by
  refine ⟨(generate_fallback_on_failure_paths 1 "Item arrived broken").1,
    (generate_fallback_on_failure_paths 1 "Item arrived broken").2
      "I am sorry, I cannot respond." ?_⟩
  intro m hm
  rw [show pyJsonLoads (stripFence (pyStrip "I am sorry, I cannot respond.")) = none
    from by decide] at hm
  exact Option.noConfusion hm

/-- C5: round-trip — for every raw text whose fence-stripped, trimmed form
decodes to a JSON object containing all three expected keys (in any key
order, fenced or not: the hypothesis is exactly the decoding pipeline the
parser applies), the parser returns the values bound to those keys
verbatim. -/
theorem parse_roundtrip (t : String) (r : Int) (m : JsonObj) (v1 v2 v3 : Json)
    (hm : pyJsonLoads (stripFence (pyStrip t)) = some (Json.obj m))
    (h1 : objGet m "user_response" = some v1)
    (h2 : objGet m "admin_summary" = some v2)
    (h3 : objGet m "recommended_action" = some v3) :
    LLMService._parse t r = ⟨v1, v2, v3⟩ := by
  unfold LLMService._parse
  simp only [hm, h1, h2, h3, Option.getD_some]

theorem parse_roundtrip_witness :
    LLMService._parse
        "```json\n\x7b\"user_response\":\"Thanks!\",\"admin_summary\":\"Happy customer\",\"recommended_action\":\"None\"\x7d\n```" 5
      = ⟨Json.str "Thanks!", Json.str "Happy customer", Json.str "None"⟩
    ∧ LLMService._parse
        " \x7b\"recommended_action\":\"None\",\"user_response\":\"Thanks!\",\"admin_summary\":\"Happy customer\"\x7d " 5
      = ⟨Json.str "Thanks!", Json.str "Happy customer", Json.str "None"⟩ :=
  ⟨parse_roundtrip
      "```json\n\x7b\"user_response\":\"Thanks!\",\"admin_summary\":\"Happy customer\",\"recommended_action\":\"None\"\x7d\n```"
      5
      (JsonObj.ocons "user_response" (Json.str "Thanks!")
        (JsonObj.ocons "admin_summary" (Json.str "Happy customer")
          (JsonObj.ocons "recommended_action" (Json.str "None") JsonObj.onil)))
      (Json.str "Thanks!") (Json.str "Happy customer") (Json.str "None")
      (by decide) (by decide) (by decide) (by decide),
   parse_roundtrip
      " \x7b\"recommended_action\":\"None\",\"user_response\":\"Thanks!\",\"admin_summary\":\"Happy customer\"\x7d "
      5
      (JsonObj.ocons "recommended_action" (Json.str "None")
        (JsonObj.ocons "user_response" (Json.str "Thanks!")
          (JsonObj.ocons "admin_summary" (Json.str "Happy customer") JsonObj.onil)))
      (Json.str "Thanks!") (Json.str "Happy customer") (Json.str "None")
      (by decide) (by decide) (by decide) (by decide)⟩

/-- C6 (amended): when the configured provider is set to any value other
than "google" — the only provider the generator recognizes — the generator
returns the fallback triple immediately and attempts no remote call.  The
original claim also asserted this for an UNSET provider; that part is false:
an unset environment variable defaults the provider to "google" (see the
counterexample), so a remote call is attempted. -/
theorem unrecognized_provider_no_remote_call (p : String) (r : Int) (rv : String)
    (out : RemoteOutcome) (h : p ≠ "google") :
    LLMService.generate_feedback_run p r rv out = (LLMService._fallback r, false) := by
  unfold LLMService.generate_feedback_run
  rw [if_neg h]

theorem unrecognized_provider_no_remote_call_witness :
    LLMService.generate_feedback_run "anthropic" 3 "Average service" RemoteOutcome.failure
      = (LLMService._fallback 3, false) :=
  unrecognized_provider_no_remote_call "anthropic" 3 "Average service"
    RemoteOutcome.failure (by decide)

/-- C6 counterexample: with the provider environment variable unset, the
configured provider is "google", a remote call IS attempted, and on a
successful call the generator does not return the fallback triple — so an
unset provider does not force classifier-only mode as claimed. -/
theorem unset_provider_counterexample :
    Config.LLM_PROVIDER none = "google"
    ∧ (LLMService.generate_feedback_run (Config.LLM_PROVIDER none) 5 "Loved it"
        (RemoteOutcome.success
          "\x7b\"user_response\":\"A\",\"admin_summary\":\"B\",\"recommended_action\":\"C\"\x7d")).2
      = true
    ∧ LLMService.generate_feedback (Config.LLM_PROVIDER none) 5 "Loved it"
        (RemoteOutcome.success
          "\x7b\"user_response\":\"A\",\"admin_summary\":\"B\",\"recommended_action\":\"C\"\x7d")
      ≠ LLMService._fallback 5 :=
  ⟨rfl, by decide, by decide⟩

/-- C7: every submission whose rating is outside 1..5 or whose review text
is empty after trimming is rejected with a 422 validation error before
anything else happens: the table is unchanged, no remote model call is
attempted, and no prompt is built. -/
theorem invalid_submission_rejected (p : String) (rating : Int) (raw : String)
    (out : RemoteOutcome) (store : List StoredReview) (now : Nat)
    (h : ¬(1 ≤ rating ∧ rating ≤ 5) ∨ pyStrip raw = "") :
    (submit_review p rating raw out store now).response = SubmitResponse.clientError 422
    ∧ (submit_review p rating raw out store now).store = store
    ∧ (submit_review p rating raw out store now).remoteAttempted = false
    ∧ (submit_review p rating raw out store now).promptUsed = none := by
  unfold submit_review
  rcases h with h | h
  · rw [if_neg h]
    exact ⟨rfl, rfl, rfl, rfl⟩
  · by_cases hr : 1 ≤ rating ∧ rating ≤ 5
    · rw [if_pos hr]
      simp only [h, if_pos rfl]
      exact ⟨rfl, rfl, rfl, rfl⟩
    · rw [if_neg hr]
      exact ⟨rfl, rfl, rfl, rfl⟩

theorem invalid_submission_rejected_witness :
    ((submit_review "google" 0 "Item arrived broken" RemoteOutcome.failure [] 7).response
        = SubmitResponse.clientError 422
      ∧ (submit_review "google" 0 "Item arrived broken" RemoteOutcome.failure [] 7).store = []
      ∧ (submit_review "google" 0 "Item arrived broken" RemoteOutcome.failure [] 7).remoteAttempted
        = false
      ∧ (submit_review "google" 0 "Item arrived broken" RemoteOutcome.failure [] 7).promptUsed
        = none)
    ∧ ((submit_review "google" 3 "   " RemoteOutcome.failure [] 7).response
        = SubmitResponse.clientError 422
      ∧ (submit_review "google" 3 "   " RemoteOutcome.failure [] 7).store = []
      ∧ (submit_review "google" 3 "   " RemoteOutcome.failure [] 7).remoteAttempted = false
      ∧ (submit_review "google" 3 "   " RemoteOutcome.failure [] 7).promptUsed = none) :=
  ⟨invalid_submission_rejected "google" 0 "Item arrived broken" RemoteOutcome.failure [] 7
      (Or.inl (by decide)),
   invalid_submission_rejected "google" 3 "   " RemoteOutcome.failure [] 7
      (Or.inr (by decide))⟩

theorem generate_run_snd (p : String) (r : Int) (rv : String) (out : RemoteOutcome) :
    (LLMService.generate_feedback_run p r rv out).2 = decide (p = "google") := by
  unfold LLMService.generate_feedback_run
  by_cases hp : p = "google"
  · rw [if_pos hp]
    cases LLMService._call_google r rv out <;> simp [hp]
  · rw [if_neg hp]
    simp [hp]

/-- C8: for every stored set of reviews, retrieval with a rating filter r in
1..5 returns exactly the stored reviews whose rating equals r, and
unfiltered retrieval returns all stored reviews; in both cases each returned
row exposes rating, review text, internal summary, recommended action and
creation timestamp (the `ReviewRow` projection) and the result is ordered by
creation timestamp descending (newest first). -/
theorem get_reviews_filtered_sorted (store : List StoredReview) (r : Int)
    (h1 : 1 ≤ r) (h2 : r ≤ 5) :
    List.Perm (get_all_reviews store (some r))
        ((store.filter (fun x => decide (x.rating = r))).map projectRow)
    ∧ List.Sorted newestFirst (get_all_reviews store (some r))
    ∧ List.Perm (get_all_reviews store none) (store.map projectRow)
    ∧ List.Sorted newestFirst (get_all_reviews store none) := by
  have hr0 : ¬ r = 0 := by omega
  refine ⟨?_, ?_, ?_, ?_⟩
  · simp only [get_all_reviews, hr0, ite_false]
    exact List.perm_insertionSort _ _
  · exact List.sorted_insertionSort _ _
  · simp only [get_all_reviews]
    exact List.perm_insertionSort _ _
  · exact List.sorted_insertionSort _ _

theorem get_reviews_filtered_sorted_witness :
    List.Perm
        (get_all_reviews
          [⟨3, "meh", Json.str "r1", Json.str "s1", Json.str "a1", 1⟩,
           ⟨5, "great", Json.str "r2", Json.str "s2", Json.str "a2", 2⟩] (some 3))
        (([⟨3, "meh", Json.str "r1", Json.str "s1", Json.str "a1", 1⟩,
           ⟨5, "great", Json.str "r2", Json.str "s2", Json.str "a2", 2⟩]
            : List StoredReview).filter (fun x => decide (x.rating = 3)) |>.map projectRow)
    ∧ List.Sorted newestFirst
        (get_all_reviews
          [⟨3, "meh", Json.str "r1", Json.str "s1", Json.str "a1", 1⟩,
           ⟨5, "great", Json.str "r2", Json.str "s2", Json.str "a2", 2⟩] (some 3))
    ∧ List.Perm
        (get_all_reviews
          [⟨3, "meh", Json.str "r1", Json.str "s1", Json.str "a1", 1⟩,
           ⟨5, "great", Json.str "r2", Json.str "s2", Json.str "a2", 2⟩] none)
        (([⟨3, "meh", Json.str "r1", Json.str "s1", Json.str "a1", 1⟩,
           ⟨5, "great", Json.str "r2", Json.str "s2", Json.str "a2", 2⟩]
            : List StoredReview).map projectRow)
    ∧ List.Sorted newestFirst
        (get_all_reviews
          [⟨3, "meh", Json.str "r1", Json.str "s1", Json.str "a1", 1⟩,
           ⟨5, "great", Json.str "r2", Json.str "s2", Json.str "a2", 2⟩] none) :=
  get_reviews_filtered_sorted
    [⟨3, "meh", Json.str "r1", Json.str "s1", Json.str "a1", 1⟩,
     ⟨5, "great", Json.str "r2", Json.str "s2", Json.str "a2", 2⟩] 3
    (by decide) (by decide)

/-- C9: for every accepted submission (rating in range, text non-empty after
trimming), the review text that reaches both the feedback generator and the
storage insert is the validator-trimmed text truncated to
`MAX_REVIEW_LENGTH` (5000) code points; the truncated text never exceeds
that bound, and when a remote call is attempted the prompt embeds exactly
that truncated text between the fixed template pieces. -/
theorem submitted_text_truncated (p : String) (rating : Int) (raw : String)
    (out : RemoteOutcome) (store : List StoredReview) (now : Nat)
    (h1 : 1 ≤ rating) (h2 : rating ≤ 5) (h3 : ¬ pyStrip raw = "") :
    (submit_review p rating raw out store now).store
      = store ++ [⟨rating, pySlice (pyStrip raw) Config.MAX_REVIEW_LENGTH,
          (LLMService.generate_feedback p rating
            (pySlice (pyStrip raw) Config.MAX_REVIEW_LENGTH) out).ai_response,
          (LLMService.generate_feedback p rating
            (pySlice (pyStrip raw) Config.MAX_REVIEW_LENGTH) out).ai_summary,
          (LLMService.generate_feedback p rating
            (pySlice (pyStrip raw) Config.MAX_REVIEW_LENGTH) out).ai_recommended_action,
          now⟩]
    ∧ (pySlice (pyStrip raw) Config.MAX_REVIEW_LENGTH).length ≤ Config.MAX_REVIEW_LENGTH
    ∧ (submit_review p rating raw out store now).promptUsed
        = (if p = "google"
           then some (promptPre rating ++ pySlice (pyStrip raw) Config.MAX_REVIEW_LENGTH
                       ++ promptPost)
           else none) := by
  have hr : 1 ≤ rating ∧ rating ≤ 5 := ⟨h1, h2⟩
  refine ⟨?_, ?_, ?_⟩
  · unfold submit_review
    rw [if_pos hr]
    simp only [h3, ite_false]
    rfl
  · have h := min_le_left Config.MAX_REVIEW_LENGTH (pyStrip raw).data.length
    rw [← List.length_take] at h
    exact h
  · unfold submit_review
    rw [if_pos hr]
    simp only [h3, ite_false]
    rw [generate_run_snd]
    by_cases hp : p = "google"
    · simp [hp, LLMService._build_prompt]
    · simp [hp]

theorem submitted_text_truncated_witness :
    (submit_review "google" 4 " Loved it " RemoteOutcome.failure [] 9).store
      = [] ++ [⟨4, pySlice (pyStrip " Loved it ") Config.MAX_REVIEW_LENGTH,
          (LLMService.generate_feedback "google" 4
            (pySlice (pyStrip " Loved it ") Config.MAX_REVIEW_LENGTH)
            RemoteOutcome.failure).ai_response,
          (LLMService.generate_feedback "google" 4
            (pySlice (pyStrip " Loved it ") Config.MAX_REVIEW_LENGTH)
            RemoteOutcome.failure).ai_summary,
          (LLMService.generate_feedback "google" 4
            (pySlice (pyStrip " Loved it ") Config.MAX_REVIEW_LENGTH)
            RemoteOutcome.failure).ai_recommended_action,
          9⟩]
    ∧ (pySlice (pyStrip " Loved it ") Config.MAX_REVIEW_LENGTH).length
        ≤ Config.MAX_REVIEW_LENGTH
    ∧ (submit_review "google" 4 " Loved it " RemoteOutcome.failure [] 9).promptUsed
        = (if ("google" : String) = "google"
           then some (promptPre 4 ++ pySlice (pyStrip " Loved it ") Config.MAX_REVIEW_LENGTH
                       ++ promptPost)
           else none) :=
  submitted_text_truncated "google" 4 " Loved it " RemoteOutcome.failure [] 9
    (by decide) (by decide) (by decide)
